import Mathlib

/-!
Verification of the GFF3 reader/writer core of `skbio/io/format/gff3.py`
(repository RNAer/scikit-bio).

The Python source is shallowly embedded below: each Python function is
translated into an executable Lean definition over `String` / `List Char`,
Python exceptions become an explicit `GFFError` sum carried in `Except`
(or, where the caller-visible mutation on failure matters, a pair of the
mutated state and an optional error), and the external collaborators that
are not part of the shown source (the line source, the blank-line probe,
the vocabulary table, the interval container) are modelled from the
design document, each marked `Modelled from the spec:` in its doc string.
-/

deriving instance DecidableEq for Except

namespace GFF3

/-! ### Python string primitives -/

/-- Python `s.split(sep)` for a one-character separator, on the character
list: `''.split(sep) == ['']`, and every occurrence of the separator
starts a new (possibly empty) field. -/
def splitChars (sep : Char) : List Char → List (List Char)
  | [] => [[]]
  | c :: cs =>
    let r := splitChars sep cs
    if c = sep then [] :: r
    else
      match r with
      | [] => [[c]]
      | g :: gs => (c :: g) :: gs

/-- Python `s.split(sep)` on `String`. -/
def pySplit (s : String) (sep : Char) : List String :=
  (splitChars sep s.toList).map String.mk

/-- Python `s.split(sep, 1)`: split at the first occurrence only.
`none` models the absence of the separator, where a two-variable tuple
unpacking of the result raises `ValueError`. -/
def splitFirst (sep : Char) : List Char → Option (List Char × List Char)
  | [] => none
  | c :: cs =>
    if c = sep then some ([], cs)
    else (splitFirst sep cs).map (fun p => (c :: p.1, p.2))

/-- Python `line.split('\t', 1)` restricted to the successful two-field
unpacking `seq_id, _ = line.split('\t', 1)`; `none` is the `ValueError`
raised when the line has no tab. -/
def splitFirstTab (s : String) : Option (String × String) :=
  (splitFirst '\t' s.toList).map (fun p => (String.mk p.1, String.mk p.2))

/-- Python `s.startswith(c)` for a single-character prefix. -/
def pyStartsWith (s : String) (c : Char) : Bool :=
  match s.toList with
  | [] => false
  | x :: _ => x = c

/-- Python `s.strip()`: drop whitespace from both ends. -/
def pyStrip (s : String) : String :=
  String.mk (((s.toList.dropWhile Char.isWhitespace).reverse.dropWhile
    Char.isWhitespace).reverse)

/-- A blank line: empty or whitespace only (what
`_line_generator(..., skip_blanks=True)` skips). -/
def isBlank (s : String) : Bool :=
  pyStrip s = ""

/-- Value of a nonempty all-digit character list. -/
def digitsVal (cs : List Char) : Option Nat :=
  if cs = [] then none
  else if cs.all Char.isDigit then
    some (cs.foldl (fun n c => n * 10 + (c.toNat - 48)) 0)
  else none

/-- Python `int(s)`: surrounding whitespace is ignored, an optional
sign precedes a nonempty digit string; anything else raises
`ValueError`, modelled as `none`. -/
def pyInt (s : String) : Option Int :=
  match (pyStrip s).toList with
  | '+' :: cs => (digitsVal cs).map Int.ofNat
  | '-' :: cs => (digitsVal cs).map (fun n => -(n : Int))
  | cs => (digitsVal cs).map Int.ofNat

/-! ### Errors

Python exceptions raised by the embedded code. `GFF3FormatError` is split
by its two message forms (column count, phase); `valueError` covers the
`ValueError` of a failed tuple unpacking, `intParse` the `ValueError` of
`int()`, and `nameError` the `NameError` of evaluating an undefined
module-level name. -/

inductive GFFError where
  | malformedRecord (line : String)
  | invalidPhase (phase : String)
  | intParse (text : String)
  | valueError (text : String)
  | nameError (name : String)
deriving Repr, DecidableEq

/-! ### The interval container (external collaborator) -/

/-- Modelled from the spec: one stored feature of the external
`FeatureCollection` — a list of coordinate bounds plus a flat
string-to-string metadata mapping (insertion-ordered, as a Python dict). -/
structure Interval where
  bounds : List (Int × Int)
  metadata : List (String × String)
deriving Repr, DecidableEq

/-- Modelled from the spec: the external `FeatureCollection`
(`IntervalMetadata`) is consumed only through `add(bounds, metadata)`
and ordered iteration over its intervals, so it is a list of intervals
in insertion order. -/
structure IntervalMetadata where
  intervals : List Interval
deriving Repr, DecidableEq

/-- Modelled from the spec: `add(bounds, metadata)` appends one feature;
no deduplication, insertion order preserved. -/
def IntervalMetadata.add (imd : IntervalMetadata) (bounds : List (Int × Int))
    (metadata : List (String × String)) : IntervalMetadata :=
  ⟨imd.intervals ++ [⟨bounds, metadata⟩]⟩

def emptyIMD : IntervalMetadata := ⟨[]⟩

/-! ### Python dict operations used by `_parse_attr` -/

/-- Python `md[k] = v` on an insertion-ordered dict: overwrite in place
when the key exists, append otherwise. -/
def dictInsert (m : List (String × String)) (k v : String) :
    List (String × String) :=
  if m.any (fun p => p.1 = k) then
    m.map (fun p => if p.1 = k then (k, v) else p)
  else m ++ [(k, v)]

/-- Modelled from the spec: `_vocabulary_change('gff3')` is a fixed,
immutable rename table for attribute tags. The design document names the
predefined canonical tags (`ID`, `Name`, `Alias`, `Parent`, `Target`,
`Gap`, `Derives_from`, `Note`, `Dbxref`, `Ontology_term`, `Is_circular`)
and specifies substituting the canonical key when the tag is present in
the table; it records no gff3-specific rename, so the table maps no tag
to a different key. -/
def vocabularyChange : List (String × String) := []

/-- `if k in voca_change: k = voca_change[k]`. -/
def renameKey (k : String) : String :=
  match vocabularyChange.lookup k with
  | some k2 => k2
  | none => k

/-! ### Line source and blank probe (external collaborators) -/

/-- Modelled from the spec: the external Line Source
(`_line_generator(fh, skip_blanks=True, strip=True)`) yields each input
line stripped of surrounding whitespace, skipping lines that are blank. -/
def lineGen (raw : List String) : List String :=
  (raw.map pyStrip).filter (fun l => l ≠ "")

/-- Modelled from the spec: the Line Source with `strip=False`
(used by the sniffer) skips blank lines but yields surviving lines
verbatim. -/
def lineGenNoStrip (raw : List String) : List String :=
  raw.filter (fun l => ¬ isBlank l)

/-- Number of leading blank lines of the stream. -/
def countLeadingBlanks (raw : List String) : Nat :=
  (raw.takeWhile isBlank).length

/-- Modelled from the spec: `_too_many_blanks(fh, maxn)` — the bounded
leading-blank probe reports `true` exactly when the budget of `maxn`
leading blank lines is exhausted before a non-blank line is seen. -/
def tooManyBlanks (raw : List String) (maxn : Nat) : Bool :=
  maxn < countLeadingBlanks raw

/-! ### The sniffer -/

/-- One step of matching the regular expression `##gff-version\s+3`
against a prefix of the line: the literal is consumed first. -/
def stripLiteral : List Char → List Char → Option (List Char)
  | [], cs => some cs
  | _ :: _, [] => none
  | p :: ps, c :: cs => if c = p then stripLiteral ps cs else none

/-- `re.match(r'##gff-version\s+3', line)`: the literal `##gff-version`,
then at least one whitespace character, then the character `3`, as a
prefix of the line. -/
def matchGffVersion3 (line : String) : Bool :=
  match stripLiteral ("##gff-version".toList) line.toList with
  | none => false
  | some [] => false
  | some (c :: cs) =>
    c.isWhitespace &&
      (match cs.dropWhile Char.isWhitespace with
       | '3' :: _ => true
       | _ => false)

/-- `_gff3_sniffer`: probe the blank budget (5), take the first
non-blank line (`StopIteration` reports no-match), and test it against
the version directive. The hints mapping is always empty. -/
def _gff3_sniffer (raw : List String) : Bool × List (String × String) :=
  if tooManyBlanks raw 5 then (false, [])
  else
    match lineGenNoStrip raw with
    | [] => (false, [])
    | line :: _ => (matchGffVersion3 line, [])

/-! ### The record grouper `_yield_record` -/

/-- The loop of `_yield_record`: `current` is `none` for the Python
sentinel `False` and `some seqId` when a sequence id has been recorded
(the source never performs that assignment, but the state is kept
faithful to the Python variable, which could hold either). A line whose
first-tab split fails raises `ValueError` (the two-variable unpacking);
on a differing id the source yields the accumulated pair, resets
`current` to `False`, and drops the line — without resetting the
buffer. After exhaustion the accumulated pair is yielded once. -/
def yieldRecordLoop (current : Option String) (lines : List String) :
    List String → Except GFFError (List (Option String × List String))
  | [] => .ok [(current, lines)]
  | l :: rest =>
    if pyStartsWith l '#' then yieldRecordLoop current lines rest
    else
      match splitFirstTab l with
      | none => .error (.valueError l)
      | some (seqId, _) =>
        if current = some seqId ∨ current = none then
          yieldRecordLoop current (lines ++ [l]) rest
        else
          (yieldRecordLoop none lines rest).map
            (fun gs => (current, lines) :: gs)

/-- `_yield_record(fh)`: group the stripped, non-blank lines of the
stream. -/
def _yield_record (raw : List String) :
    Except GFFError (List (Option String × List String)) :=
  yieldRecordLoop none [] (lineGen raw)

/-! ### The column parser `_parse_record` -/

/-- Python `isinstance(phase, int)` where `phase = columns[7]`:
`str.split` always yields strings, so the test is `false` for every
column value. -/
def isInstanceInt (_phase : String) : Bool := false

/-- The body of the `for line in lines` loop of `_parse_record`:
check the 9-column count, build the flat metadata dict from columns
1, 2, 5 and 6, run the phase check (`isinstance` branch first, then
reject any literal other than `.`), convert start and end with `int()`,
and `add` the single bound `(start-1, end)`. -/
def parseLineStep (imd : IntervalMetadata) (line : String) :
    Except GFFError IntervalMetadata :=
  let columns := pySplit line '\t'
  if columns.length ≠ 9 then
    .error (.malformedRecord line)
  else
    let metadata := [("source", columns.getD 1 ""),
                     ("type", columns.getD 2 ""),
                     ("score", columns.getD 5 ""),
                     ("strand", columns.getD 6 "")]
    let phase := columns.getD 7 ""
    let metadataE : Except GFFError (List (String × String)) :=
      if isInstanceInt phase then
        -- dead branch of the source: `metadata['phase'] = int(phase)`
        .ok (metadata ++ [("phase", phase)])
      else if phase ≠ "." then
        .error (.invalidPhase phase)
      else
        .ok metadata
    match metadataE with
    | .error e => .error e
    | .ok md =>
      match pyInt (columns.getD 3 "") with
      | none => .error (.intParse (columns.getD 3 ""))
      | some st =>
        match pyInt (columns.getD 4 "") with
        | none => .error (.intParse (columns.getD 4 ""))
        | some en => .ok (imd.add [(st - 1, en)] md)

/-- The `for` loop of `_parse_record` with the caller-visible state
made explicit: the collection passed in is mutated in place by each
successful line, so on an exception the mutations of the preceding
lines persist. The second component is the raised exception, if any. -/
def parseRecordLoop (imd : IntervalMetadata) :
    List String → IntervalMetadata × Option GFFError
  | [] => (imd, none)
  | l :: ls =>
    match parseLineStep imd l with
    | .ok imd2 => parseRecordLoop imd2 ls
    | .error e => (imd, some e)

/-- `_parse_record(lines, interval_metadata)` as the caller sees its
return value: the (mutated) collection on success, the exception
otherwise. -/
def _parse_record (lines : List String) (imd : IntervalMetadata) :
    Except GFFError IntervalMetadata :=
  match parseRecordLoop imd lines with
  | (imd2, none) => .ok imd2
  | (_, some e) => .error e

/-! ### The attribute parser `_parse_attr` -/

/-- The `for attr in s.split(';')` loop of `_parse_attr`: each segment
is split on `=` and unpacked as `k, v` (any segment count other than
two raises `ValueError`), the key is renamed through the vocabulary
table, and insertion is last-writer-wins. -/
def parseAttrLoop (md : List (String × String)) :
    List String → Except GFFError (List (String × String))
  | [] => .ok md
  | attr :: rest =>
    match pySplit attr '=' with
    | [k, v] => parseAttrLoop (dictInsert md (renameKey k) v) rest
    | _ => .error (.valueError attr)

/-- `_parse_attr(s)`. -/
def _parse_attr (s : String) :
    Except GFFError (List (String × String)) :=
  parseAttrLoop [] (pySplit s ';')

/-! ### The writer `_interval_metadata_to_gff3` -/

/-- `_interval_metadata_to_gff3(obj, fh, seq_id)`: the header directive
is printed unconditionally; then for every interval, for every bound,
the loop `for head in _GFF3_HEADERS[1:]` is entered — but
`_GFF3_HEADERS` is neither defined nor imported anywhere in the module,
so evaluating it raises `NameError` the first time an interval with at
least one bound is reached. The returned list is the emitted lines. -/
def _interval_metadata_to_gff3 (obj : IntervalMetadata) (_seqId : String) :
    Except GFFError (List String) :=
  obj.intervals.foldlM
    (fun out interval =>
      interval.bounds.foldlM
        (fun _out2 _bound =>
          (.error (.nameError "_GFF3_HEADERS") :
            Except GFFError (List String)))
        out)
    ["##gff-version 3"]

/-! ### Helper lemmas -/

theorem splitChars_length (sep : Char) (l : List Char) :
    (splitChars sep l).length = l.count sep + 1 := by
  induction l with
  | nil => simp [splitChars]
  | cons c cs ih =>
    by_cases h : c = sep
    · simp [splitChars, h, List.count_cons, ih]
    · cases hr : splitChars sep cs with
      | nil => rw [hr] at ih; simp at ih
      | cons g gs =>
        rw [hr] at ih
        simp only [splitChars, if_neg h, hr, List.length_cons,
          List.count_cons] at *
        simp [ih, h]

theorem pySplit_length (s : String) (sep : Char) :
    (pySplit s sep).length = s.toList.count sep + 1 := by
  simp [pySplit, splitChars_length]

theorem parseAttrLoop_ok_iff (attrs : List String)
    (md : List (String × String)) :
    (∃ m, parseAttrLoop md attrs = .ok m) ↔
      ∀ a ∈ attrs, (pySplit a '=').length = 2 := by
  induction attrs generalizing md with
  | nil => simp [parseAttrLoop]
  | cons a rest ih =>
    rcases hsplit : pySplit a '=' with _ | ⟨k, _ | ⟨v, _ | ⟨x, xs⟩⟩⟩
    · simp [parseAttrLoop, hsplit]
    · simp [parseAttrLoop, hsplit]
    · simp [parseAttrLoop, hsplit, ih]
    · simp [parseAttrLoop, hsplit]

/-- In the grouper loop, a prefix of lines that are each either comments
or tab-containing never masks the exception raised at the first
tab-less non-comment line. -/
theorem yieldRecordLoop_error_at (l : String) (post : List String)
    (hcomment : pyStartsWith l '#' = false)
    (htab : splitFirstTab l = none) :
    ∀ (pre : List String) (current : Option String) (lines : List String),
      (∀ x ∈ pre, pyStartsWith x '#' = true ∨ splitFirstTab x ≠ none) →
      yieldRecordLoop current lines (pre ++ l :: post)
        = .error (.valueError l) := by
  intro pre
  induction pre with
  | nil =>
    intro current lines _
    simp [yieldRecordLoop, hcomment, htab]
  | cons x pre' ih =>
    intro current lines hpre
    have hpre' : ∀ y ∈ pre',
        pyStartsWith y '#' = true ∨ splitFirstTab y ≠ none :=
      fun y hy => hpre y (List.mem_cons_of_mem _ hy)
    rw [List.cons_append]
    by_cases hc : pyStartsWith x '#' = true
    · simp only [yieldRecordLoop, hc, if_true]
      exact ih current lines hpre'
    · have hc' : pyStartsWith x '#' = false := by simpa using hc
      rcases hx : splitFirstTab x with _ | ⟨sid, r⟩
      · rcases hpre x (List.mem_cons_self _ _) with h1 | h1
        · exact absurd h1 hc
        · exact absurd hx h1
      · simp only [yieldRecordLoop, hc', Bool.false_eq_true, if_false, hx]
        split
        · exact ih current (lines ++ [x]) hpre'
        · rw [ih none lines hpre']
          rfl

/-! ### Claim theorems -/

/-- C1: the round-trip claim fails on the code. Reading the single-line
well-formed input does succeed (the grouper hands the data line over and
the parser stores bound `(999, 9000)` with the four metadata fields —
note the phase and ATTR columns are dropped), but writing the resulting
collection back raises `NameError` on the undefined `_GFF3_HEADERS`, so
no data line at all is emitted, let alone the original one verbatim. -/
theorem C1_round_trip_fails :
    _yield_record ["##gff-version\t3",
        "ctg123\t.\tgene\t1000\t9000\t.\t+\t.\tID=gene00001;Name=EDEN"]
      = .ok [(none,
          ["ctg123\t.\tgene\t1000\t9000\t.\t+\t.\tID=gene00001;Name=EDEN"])] ∧
    _parse_record
        ["ctg123\t.\tgene\t1000\t9000\t.\t+\t.\tID=gene00001;Name=EDEN"]
        emptyIMD
      = .ok ⟨[⟨[(999, 9000)],
          [("source", "."), ("type", "gene"), ("score", "."),
           ("strand", "+")]⟩]⟩ ∧
    _interval_metadata_to_gff3
        ⟨[⟨[(999, 9000)],
          [("source", "."), ("type", "gene"), ("score", "."),
           ("strand", "+")]⟩]⟩ "ctg123"
      = .error (.nameError "_GFF3_HEADERS") := by
  exact ⟨by decide, by decide, by decide⟩

/-- C2: the grouping claim fails on the code. `_yield_record` never
assigns `current = seq_id`, so `current` stays the sentinel `False`
forever, the membership test `current == seq_id or current is False`
is always true, and every non-comment line is appended to one single
buffer which is yielded once at exhaustion under the sentinel id — the
three runs `s1`, `s2`, `s1` of this input come back as one merged group
`(False, all lines)` instead of three `(id, run)` pairs. -/
theorem C2_grouper_broken :
    _yield_record ["s1\ta", "s2\tb", "s1\tc"]
      = .ok [(none, ["s1\ta", "s2\tb", "s1\tc"])] := by decide

/-- C3: the writer-totality claim fails on the code. On an empty
collection only the header directive is printed, but as soon as one
interval with one bound is present the loop body evaluates the
module-level name `_GFF3_HEADERS`, which is neither defined nor
imported in `gff3.py`, and raises `NameError`. -/
theorem C3_writer_not_total :
    _interval_metadata_to_gff3 emptyIMD "seq1" = .ok ["##gff-version 3"] ∧
    _interval_metadata_to_gff3 ⟨[⟨[(0, 5)], [("source", ".")]⟩]⟩ "seq1"
      = .error (.nameError "_GFF3_HEADERS") := by
  exact ⟨by decide, by decide⟩

/-- C4: the phase-validation claim fails on the code. Because
`phase = columns[7]` is always a string, `isinstance(phase, int)` is
always false and the `elif phase != '.'` branch raises
`GFF3FormatError` for every literal other than `.` — including the
integer-literal strings `0`, `1`, `2` that the claim says are
accepted. Only `.` passes. -/
theorem C4_phase_rejects_integer_strings :
    parseLineStep emptyIMD "s\tsrc\tCDS\t1\t2\t.\t+\t0\tID=x"
      = .error (.invalidPhase "0") ∧
    parseLineStep emptyIMD "s\tsrc\tCDS\t1\t2\t.\t+\t1\tID=x"
      = .error (.invalidPhase "1") ∧
    parseLineStep emptyIMD "s\tsrc\tCDS\t1\t2\t.\t+\t2\tID=x"
      = .error (.invalidPhase "2") ∧
    parseLineStep emptyIMD "s\tsrc\tCDS\t1\t2\t.\t+\tabc\tID=x"
      = .error (.invalidPhase "abc") ∧
    parseLineStep emptyIMD "s\tsrc\tCDS\t1\t2\t.\t+\t.\tID=x"
      = .ok ⟨[⟨[(0, 2)],
          [("source", "src"), ("type", "CDS"), ("score", "."),
           ("strand", "+")]⟩]⟩ := by
  exact ⟨by decide, by decide, by decide, by decide, by decide⟩

/-- C5 counterexample: parsing a two-line group whose second line is
malformed raises, yet the caller-supplied collection is left holding
the record of the first line — it is not unchanged as the claim
states. -/
theorem C5_counterexample :
    parseRecordLoop emptyIMD ["s\ta\tb\t1\t2\t.\t+\t.\tx", "bad"]
      = (⟨[⟨[(0, 2)],
          [("source", "a"), ("type", "b"), ("score", "."),
           ("strand", "+")]⟩]⟩, some (.malformedRecord "bad")) ∧
    (⟨[⟨[(0, 2)],
        [("source", "a"), ("type", "b"), ("score", "."),
         ("strand", "+")]⟩]⟩ : IntervalMetadata) ≠ emptyIMD := by
  exact ⟨by decide, by decide⟩

/-- C5 amended: when parsing a group raises, the error comes from the
first failing line, nothing from the failing line or the lines after it
is added, but the records of every line preceding the failing one have
already been added: the caller-supplied collection is left in exactly
the state reached after the successful prefix. -/
theorem C5_error_keeps_prefix (imd : IntervalMetadata)
    (lines : List String) (e : GFFError)
    (h : (parseRecordLoop imd lines).2 = some e) :
    ∃ pre l post, lines = pre ++ l :: post ∧
      (parseRecordLoop imd pre).2 = none ∧
      parseLineStep (parseRecordLoop imd pre).1 l = .error e ∧
      (parseRecordLoop imd lines).1 = (parseRecordLoop imd pre).1 := by
  induction lines generalizing imd with
  | nil => simp [parseRecordLoop] at h
  | cons l ls ih =>
    cases hstep : parseLineStep imd l with
    | error e' =>
      have hloop : parseRecordLoop imd (l :: ls) = (imd, some e') := by
        simp [parseRecordLoop, hstep]
      have he : e' = e := by
        rw [hloop] at h
        exact Option.some_inj.mp h
      refine ⟨[], l, ls, rfl, by simp [parseRecordLoop], ?_, ?_⟩
      · simpa [parseRecordLoop, he] using hstep
      · simp [parseRecordLoop, hstep]
    | ok imd2 =>
      have hloop : parseRecordLoop imd (l :: ls) = parseRecordLoop imd2 ls := by
        simp [parseRecordLoop, hstep]
      rw [hloop] at h
      obtain ⟨pre, l', post, hsplit, hpre, hfail, hstate⟩ := ih imd2 h
      have hstep' : parseRecordLoop imd (l :: pre) = parseRecordLoop imd2 pre := by
        simp [parseRecordLoop, hstep]
      refine ⟨l :: pre, l', post, by simp [hsplit], ?_, ?_, ?_⟩
      · rw [hstep']; exact hpre
      · rw [hstep']; exact hfail
      · rw [hloop, hstep']; exact hstate

/-- C5 witness: the amended statement instantiated on the concrete
two-line group of the counterexample. -/
theorem C5_error_keeps_prefix_witness :
    ∃ pre l post,
      (["s\ta\tb\t1\t2\t.\t+\t.\tx", "bad"] : List String)
        = pre ++ l :: post ∧
      (parseRecordLoop emptyIMD pre).2 = none ∧
      parseLineStep (parseRecordLoop emptyIMD pre).1 l
        = .error (.malformedRecord "bad") ∧
      (parseRecordLoop emptyIMD
          ["s\ta\tb\t1\t2\t.\t+\t.\tx", "bad"]).1
        = (parseRecordLoop emptyIMD pre).1 :=
  C5_error_keeps_prefix emptyIMD ["s\ta\tb\t1\t2\t.\t+\t.\tx", "bad"]
    (.malformedRecord "bad") (by decide)

/-- C6: for every well-formed 9-column data line whose phase column is
`.` and whose start and end columns parse as integers, the parser adds
the single bound `(start-1, end)` together with the flat metadata
mapping of source, type, score and strand. -/
theorem C6_coordinate_conversion (imd : IntervalMetadata) (line : String)
    (c0 c1 c2 c3 c4 c5 c6 c7 c8 : String)
    (hsplit : pySplit line '\t' = [c0, c1, c2, c3, c4, c5, c6, c7, c8])
    (hphase : c7 = ".") (st en : Int)
    (hst : pyInt c3 = some st) (hen : pyInt c4 = some en) :
    parseLineStep imd line
      = .ok (imd.add [(st - 1, en)]
          [("source", c1), ("type", c2), ("score", c5),
           ("strand", c6)]) := by
  simp [parseLineStep, hsplit, isInstanceInt, hphase, hst, hen]

/-- C6 witness: the concrete line of the claim parses to the bound
`(999, 9000)` with metadata source `.`, type `gene`, score `.`,
strand `+`. -/
theorem C6_coordinate_conversion_witness :
    pySplit "ctg123\t.\tgene\t1000\t9000\t.\t+\t.\tID=gene00001;Name=EDEN"
        '\t'
      = ["ctg123", ".", "gene", "1000", "9000", ".", "+", ".",
         "ID=gene00001;Name=EDEN"] ∧
    pyInt "1000" = some 1000 ∧
    pyInt "9000" = some 9000 ∧
    parseLineStep emptyIMD
        "ctg123\t.\tgene\t1000\t9000\t.\t+\t.\tID=gene00001;Name=EDEN"
      = .ok (emptyIMD.add [((1000 : Int) - 1, 9000)]
          [("source", "."), ("type", "gene"), ("score", "."),
           ("strand", "+")]) ∧
    emptyIMD.add [((1000 : Int) - 1, 9000)]
        [("source", "."), ("type", "gene"), ("score", "."),
         ("strand", "+")]
      = ⟨[⟨[(999, 9000)],
          [("source", "."), ("type", "gene"), ("score", "."),
           ("strand", "+")]⟩]⟩ :=
  ⟨by decide, by decide, by decide,
   C6_coordinate_conversion emptyIMD
     "ctg123\t.\tgene\t1000\t9000\t.\t+\t.\tID=gene00001;Name=EDEN"
     "ctg123" "." "gene" "1000" "9000" "." "+" "."
     "ID=gene00001;Name=EDEN" (by decide) rfl 1000 9000
     (by decide) (by decide),
   by decide⟩

/-- C7: the sniffer is a total function whose hints mapping is always
empty; it reports a match exactly when the stream has at most 5 leading
blank lines and its first non-blank line matches
`##gff-version\s+3`. Concretely: `##gff-version\t3.2.1` matches,
`##gff-version\t2` does not, an exhausted stream does not, and a
matching line behind six blank lines does not. -/
theorem C7_sniffer :
    (∀ raw : List String, (_gff3_sniffer raw).2 = []) ∧
    (∀ raw : List String,
      (_gff3_sniffer raw).1 = true ↔
        countLeadingBlanks raw ≤ 5 ∧
        ∃ line rest, lineGenNoStrip raw = line :: rest ∧
          matchGffVersion3 line = true) ∧
    _gff3_sniffer ["##gff-version\t3.2.1"] = (true, []) ∧
    _gff3_sniffer ["##gff-version\t2"] = (false, []) ∧
    _gff3_sniffer [] = (false, []) ∧
    _gff3_sniffer ["", " ", "", "\t", "", " ", "##gff-version\t3.2.1"]
      = (false, []) := by
  refine ⟨?_, ?_, by decide, by decide, by decide, by decide⟩
  · intro raw
    unfold _gff3_sniffer
    split
    · rfl
    · split <;> rfl
  · intro raw
    unfold _gff3_sniffer
    constructor
    · intro h
      split at h
      · simp at h
      · rename_i hblanks
        have hle : countLeadingBlanks raw ≤ 5 := by
          simpa [tooManyBlanks, Nat.not_lt] using hblanks
        split at h
        · simp at h
        · rename_i line rest hgen
          exact ⟨hle, line, rest, hgen, by simpa using h⟩
    · rintro ⟨hle, line, rest, hgen, hmatch⟩
      have hblanks : tooManyBlanks raw 5 = false := by
        simp [tooManyBlanks, Nat.not_lt]
        exact hle
      rw [if_neg (by simp [hblanks])]
      rw [hgen]
      simpa using hmatch

/-- C8: `ID=gene1;Name=EDEN` parses to the mapping ID to gene1, Name to
EDEN; `ID=gene1;BadSegmentNoEquals` fails on the equals-free segment;
duplicate tags are last-writer-wins; and in general the parse succeeds
exactly when every semicolon-delimited segment contains exactly one
`=` separator. -/
theorem C8_parse_attr :
    _parse_attr "ID=gene1;Name=EDEN"
      = .ok [("ID", "gene1"), ("Name", "EDEN")] ∧
    _parse_attr "ID=gene1;BadSegmentNoEquals"
      = .error (.valueError "BadSegmentNoEquals") ∧
    _parse_attr "ID=a;ID=b" = .ok [("ID", "b")] ∧
    ∀ s : String,
      (∃ m, _parse_attr s = .ok m) ↔
        ∀ seg ∈ pySplit s ';', seg.toList.count '=' = 1 := by
  refine ⟨by decide, by decide, by decide, ?_⟩
  intro s
  unfold _parse_attr
  rw [parseAttrLoop_ok_iff]
  constructor
  · intro h seg hseg
    have h2 := h seg hseg
    rw [pySplit_length] at h2
    omega
  · intro h seg hseg
    have h2 := h seg hseg
    rw [pySplit_length]
    omega

/-- C9: the column parser fails with the column-count error (carrying
the offending line) exactly when the line does not split into 9
tab-separated columns; concretely an 8-field and a 10-field line raise
it, while a 9-field line never does for field count alone. -/
theorem C9_column_count :
    (∀ (imd : IntervalMetadata) (line : String),
      (parseLineStep imd line = .error (.malformedRecord line) ↔
        (pySplit line '\t').length ≠ 9)) ∧
    parseLineStep emptyIMD "c0\tc1\tc2\tc3\tc4\tc5\tc6\tc7"
      = .error (.malformedRecord "c0\tc1\tc2\tc3\tc4\tc5\tc6\tc7") ∧
    parseLineStep emptyIMD "c0\tc1\tc2\tc3\tc4\tc5\tc6\tc7\tc8\tc9"
      = .error
        (.malformedRecord "c0\tc1\tc2\tc3\tc4\tc5\tc6\tc7\tc8\tc9") := by
  refine ⟨?_, by decide, by decide⟩
  intro imd line
  unfold parseLineStep
  by_cases h : (pySplit line '\t').length = 9
  · rw [if_neg (by simp [h])]
    simp only [h, ne_eq, not_true_eq_false, iff_false]
    by_cases hp : (pySplit line '\t')[7]?.getD "" = "."
    · cases hst : pyInt ((pySplit line '\t')[3]?.getD "") with
      | none => simp [isInstanceInt, hp, hst]
      | some st =>
        cases hen : pyInt ((pySplit line '\t')[4]?.getD "") with
        | none => simp [isInstanceInt, hp, hst, hen]
        | some en => simp [isInstanceInt, hp, hst, hen]
    · simp [isInstanceInt, hp]
  · rw [if_pos h]
    simp [h]

/-- C10: when the stream contains a non-blank, non-comment line with no
tab character, the grouper raises (`ValueError` from the two-variable
unpacking of `line.split('\t', 1)`) upon reaching that line, rather
than yielding a group for it or skipping it. -/
theorem C10_no_tab_raises (raw pre post : List String) (l : String)
    (hgen : lineGen raw = pre ++ l :: post)
    (hpre : ∀ x ∈ pre, pyStartsWith x '#' = true ∨ splitFirstTab x ≠ none)
    (hcomment : pyStartsWith l '#' = false)
    (htab : splitFirstTab l = none) :
    _yield_record raw = .error (.valueError l) := by
  unfold _yield_record
  rw [hgen]
  exact yieldRecordLoop_error_at l post hcomment htab pre none [] hpre

/-- C10 witness: the stream with a comment line, a well-formed data
line and then the tab-less line `notab` raises the unpacking error
at `notab`. -/
theorem C10_no_tab_raises_witness :
    lineGen ["#c", "s1\ta", "notab"] = ["#c", "s1\ta"] ++ "notab" :: [] ∧
    (∀ x ∈ (["#c", "s1\ta"] : List String),
      pyStartsWith x '#' = true ∨ splitFirstTab x ≠ none) ∧
    pyStartsWith "notab" '#' = false ∧
    splitFirstTab "notab" = none ∧
    _yield_record ["#c", "s1\ta", "notab"]
      = .error (.valueError "notab") :=
  ⟨by decide, by decide, by decide, by decide,
   C10_no_tab_raises ["#c", "s1\ta", "notab"] ["#c", "s1\ta"] [] "notab"
     (by decide) (by decide) (by decide) (by decide)⟩

end GFF3
